import Mathlib

/-!
Verification of the input parser of `vscode-journal` (`src/actions/parser.ts`).

The parser turns one line of user text into an `Input` record carrying a flag
classification, a signed day offset relative to a reference date, memo text and
a scope.  The TypeScript code matches the line against one composite regular
expression and then reads the optional capture slots; numbers are JavaScript
numbers (here: `Option Int`, with `none` standing for `NaN`), and absent
capture slots are `undefined` (here: `none : Option String`).

The development below is a shallow embedding of that file: each Lean
definition mirrors one function of the source, and the regular-expression
match is embedded as an explicit backtracking matcher specialised to the one
pattern `getExpression` builds (ordered alternation, greedy optionals, `\s`
and `.` with their JavaScript character classes, `$` at true end of input).
-/

/-- JavaScript numbers as used by the parser: an exact integer or `NaN`
(`none`).  The parser only ever produces integral values (day offsets and
epoch milliseconds at UTC midnights); float precision loss beyond `2^53` and
hexadecimal `parseInt` prefixes are outside the grammar's vocabulary and are
not modelled. -/
abbrev JSNum := Option Int

/-- Characters of the JavaScript regular-expression class `\s`
(whitespace and line terminators, per the ECMAScript definition). -/
def isJsSpace (c : Char) : Bool :=
  c == ' ' || c == '\t' || c == '\n' || c == '\u000b' || c == '\u000c' ||
  c == '\r' || c == '\u00a0' || c == '\u1680' ||
  ('\u2000' ≤ c && c ≤ '\u200a') || c == '\u2028' || c == '\u2029' ||
  c == '\u202f' || c == '\u205f' || c == '\u3000' || c == '\ufeff'

/-- JavaScript line terminators: the characters `.` does not match. -/
def isJsLineTerm (c : Char) : Bool :=
  c == '\n' || c == '\r' || c == '\u2028' || c == '\u2029'

/-- `(.*)$` on the remaining characters: `.` matches everything except a line
terminator and `$` (no `m` flag) only the true end, so the final free-text
group swallows the rest of the line exactly when no line terminator is left. -/
def noLineTerm (l : List Char) : Bool := l.all (fun c => !isJsLineTerm c)

/-- The regular-expression class `\d`. -/
def isDigitCh (c : Char) : Bool := '0' ≤ c && c ≤ '9'

/-- Consume a literal (one alternative of an alternation) from the input,
returning the rest. -/
def stripLit : List Char → List Char → Option (List Char)
  | [], s => some s
  | _ :: _, [] => none
  | c :: p, d :: s => if c == d then stripLit p s else none

/-- Ordered alternation: try each alternative in order with the whole
continuation, as the backtracking regex engine does. -/
def pickFirst {α β : Type} : List α → (α → Option β) → Option β
  | [], _ => none
  | a :: as, f => f a <|> pickFirst as f

/-- One mandatory `\s`. -/
def stripWS1 : List Char → Option (List Char)
  | c :: r => if isJsSpace c then some r else none
  | [] => none

/-- The flag piece `(?:(task|todo)\s)` of the pattern.  The two literals can
never match at the same position (they differ at index 1), so trying them in
order is the engine's exact behaviour. -/
def stripFlag (r : List Char) : Option (String × List Char) :=
  (do
    let r1 ← stripLit "task".toList r
    let r2 ← stripWS1 r1
    pure ("task", r2)) <|>
  (do
    let r1 ← stripLit "todo".toList r
    let r2 ← stripWS1 r1
    pure ("todo", r2))

/-- The tail `(?:(task|todo)\s)?(.*)$` of the pattern: greedy optional
trailing flag, then the free-text capture.  If the trailing-flag branch
matches but the rest of the line cannot satisfy `(.*)$`, the engine
backtracks to the flag-absent branch. -/
def matchTail (r : List Char) : Option (Option String × String) :=
  (do
    let (w, r1) ← stripFlag r
    if noLineTerm r1 then pure (some w, String.mk r1) else none) <|>
  (if noLineTerm r then some (none, String.mk r) else none)

/-- `(?:\s|$)` followed by the tail.  `\s` is tried first; if the tail then
fails, the `$` branch needs the current position to be the very end, which it
is not (a whitespace character is there), so the whole piece fails. -/
def ctxThenTail (r : List Char) : Option (Option String × String) :=
  match r with
  | [] => matchTail []
  | c :: r1 => if isJsSpace c then matchTail r1 else none

/-- The shortcut vocabulary of the compiled expression, in the source's
alternation order.  Note: the German words of the spec (`heute`, `morgen`,
`gestern`) are absent from the pattern the code builds. -/
def shortcutWords : List String :=
  ["today", "tod", "yesterday", "yes", "tomorrow", "tom", "0"]

/-- The shortcut piece `(?:(today|tod|yesterday|yes|tomorrow|tom|0)(?:\s|$))`:
group 2 and what follows it. -/
def tryShortcut (r : List Char) : Option (String × Option String × String) :=
  pickFirst shortcutWords (fun w => do
    let r1 ← stripLit w.toList r
    let (f, t) ← ctxThenTail r1
    pure (w, f, t))

/-- The numeric-offset piece `(?:((?:\+|\-)\d+)(?:\s|$))`: group 3 and what
follows it.  `\d+` is greedy; a shorter-than-maximal digit run is followed by
a digit, which satisfies neither `\s` nor `$`, so only the maximal run can
complete the piece. -/
def tryOffset (r : List Char) : Option (String × Option String × String) :=
  match r with
  | [] => none
  | c :: r1 =>
    if c == '+' || c == '-' then
      let ds := r1.takeWhile isDigitCh
      if ds.isEmpty then none
      else do
        let (f, t) ← ctxThenTail (r1.drop ds.length)
        pure (String.mk (c :: ds), f, t)
    else none

/-- Greedy `\d{1,2}` in continuation-passing style: two digits are preferred,
one digit is the backtracking fallback. -/
def tryD12 {α : Type} (r : List Char) (k : List Char → List Char → Option α) :
    Option α :=
  match r with
  | [] => none
  | c1 :: r1 =>
    if isDigitCh c1 then
      match r1 with
      | c2 :: r2 =>
        if isDigitCh c2 then k [c1, c2] r2 <|> k [c1] r1 else k [c1] r1
      | [] => k [c1] r1
    else none

/-- `\d{4}`: exactly four digits, no choice points. -/
def tryD4 (r : List Char) : Option (List Char × List Char) :=
  match r with
  | c1 :: c2 :: c3 :: c4 :: rest =>
    if isDigitCh c1 && isDigitCh c2 && isDigitCh c3 && isDigitCh c4 then
      some ([c1, c2, c3, c4], rest)
    else none
  | _ => none

/-- A literal `-` inside the calendar-date token. -/
def stripDash : List Char → Option (List Char)
  | '-' :: r => some r
  | _ => none

/-- The calendar-date piece
`(?:((?:\d{4}\-\d{1,2}\-\d{1,2})|(?:\d{1,2}\-\d{1,2})|(?:\d{1,2}))(?:\s|$))`:
group 4 and what follows it, with the three arities tried in the source's
order and the greedy `\d{1,2}` choices backtracked through the continuation. -/
def tryIso (r : List Char) : Option (String × Option String × String) :=
  (do
    let (y, rA) ← tryD4 r
    let rB ← stripDash rA
    tryD12 rB (fun m rC => do
      let rD ← stripDash rC
      tryD12 rD (fun d rE => do
        let (f, t) ← ctxThenTail rE
        pure (String.mk (y ++ '-' :: m ++ '-' :: d), f, t)))) <|>
  (tryD12 r (fun m r1 => do
    let r2 ← stripDash r1
    tryD12 r2 (fun d r3 => do
      let (f, t) ← ctxThenTail r3
      pure (String.mk (m ++ '-' :: d), f, t)))) <|>
  (tryD12 r (fun d r1 => do
    let (f, t) ← ctxThenTail r1
    pure (String.mk d, f, t)))

/-- The weekday-modifier vocabulary, in the source's alternation order. -/
def weekdayMods : List String := ["next", "last", "n", "l"]

/-- The weekday-name vocabulary, in the source's alternation order (English
full names, English three-letter abbreviations, German full names). -/
def weekdayNames : List String :=
  ["monday", "tuesday", "wednesday", "thursday", "friday", "saturday",
   "sunday", "mon", "tue", "wed", "thu", "fri", "sat", "sun", "montag",
   "dienstag", "mittwoch", "donnerstag", "freitag", "samstag", "sonntag"]

/-- The relative-weekday piece `(?:(next|last|n|l)\s(<names>)\s?)`: groups 5
and 6 and what follows them.  The final `\s?` is greedy, with the no-space
fallback tried on failure. -/
def tryWeekday (r : List Char) :
    Option (String × String × Option String × String) :=
  pickFirst weekdayMods (fun m => do
    let r1 ← stripLit m.toList r
    let r2 ← stripWS1 r1
    pickFirst weekdayNames (fun w => do
      let r3 ← stripLit w.toList r2
      let (f, t) ←
        (do
          let r4 ← stripWS1 r3
          matchTail r4) <|> matchTail r3
      pure (m, w, f, t)))

/-- The capture slots of the compiled expression, numbered as in the source's
comment: 1 leading flag, 2 shortcut, 3 numeric offset, 4 calendar date,
5 weekday modifier, 6 weekday name, 7 trailing flag, 8 free text.  Group 8
always participates (it may be empty); the others are `undefined` when their
alternative did not match. -/
structure Captures where
  g1 : Option String
  g2 : Option String
  g3 : Option String
  g4 : Option String
  g5 : Option String
  g6 : Option String
  g7 : Option String
  g8 : String
deriving DecidableEq, Repr

/-- After the optional leading flag: the optional date-expression group (the
four alternatives in the source's order), then the tail. -/
def dateAndTail (g1 : Option String) (r : List Char) : Option Captures :=
  (do
    let (w, f, t) ← tryShortcut r
    pure (Captures.mk g1 (some w) none none none none f t)) <|>
  (do
    let (o, f, t) ← tryOffset r
    pure (Captures.mk g1 none (some o) none none none f t)) <|>
  (do
    let (i, f, t) ← tryIso r
    pure (Captures.mk g1 none none (some i) none none f t)) <|>
  (do
    let (m, w, f, t) ← tryWeekday r
    pure (Captures.mk g1 none none none (some m) (some w) f t)) <|>
  (do
    let (f, t) ← matchTail r
    pure (Captures.mk g1 none none none none none f t))

/-- Shallow embedding of `value.match(this.getExpression())`: the anchored
composite pattern applied to the whole line.  `some` is a match with its
capture slots; `none` is JavaScript `null` (no match at all, possible only
when an unconsumed line terminator is in the input). -/
def matchExpr (value : String) : Option Captures :=
  (do
    let (w1, r1) ← stripFlag value.toList
    dateAndTail (some w1) r1) <|>
  dateAndTail none value.toList

/-- The reference date (`this.today`), as the parser reads it through the
JavaScript `Date` getters: `getFullYear()`, `getMonth()` (0-based),
`getDate()` (1-based day of month) and `getDay()` (weekday, Sunday = 0). -/
structure RefDate where
  year : Int
  month : Int
  day : Int
  wday : Int
deriving DecidableEq, Repr

/-- The decimal value of a run of digit characters. -/
def digitsToNat (ds : List Char) : Nat :=
  ds.foldl (fun acc c => acc * 10 + (c.toNat - '0'.toNat)) 0

/-- The digit-run part of `parseInt`: the leading run of decimal digits, or
`NaN` when there is none. -/
def digitsPart (r : List Char) : JSNum :=
  let ds := r.takeWhile isDigitCh
  if ds.isEmpty then none else some ((digitsToNat ds : Nat) : Int)

/-- JavaScript `parseInt` (radix 10) on a character list: skip leading
whitespace, read an optional sign and then the leading digit run; `NaN` when
no digits follow.  Hexadecimal prefixes and float rounding beyond `2^53` do
not arise for the digit strings this parser feeds in and are not modelled. -/
def parseIntChars (l : List Char) : JSNum :=
  match l.dropWhile isJsSpace with
  | '+' :: r => digitsPart r
  | '-' :: r => (digitsPart r).map (fun n => -n)
  | r => digitsPart r

/-- JavaScript `parseInt` (radix 10) on a string. -/
def parseIntJS (s : String) : JSNum := parseIntChars s.toList

/-- Substring test: does `pat` occur contiguously inside `s`?  This is what a
JavaScript `value.match(/a|b|c/)` test does for plain-literal alternatives. -/
def hasSub (pat : List Char) : List Char → Bool
  | [] => pat.isEmpty
  | c :: t => pat.isPrefixOf (c :: t) || hasSub pat t

/-- Does any of the literal alternatives occur as a substring of `s`? -/
def hasAnySub (pats : List String) (s : String) : Bool :=
  pats.any (fun p => hasSub p.toList s.toList)

/-- `resolveShortcutString` of the source: three unanchored literal-alternation
tests (`/today|tod|heute|0/`, `/tomorrow|tom|morgen/`,
`/yesterday|yes|gestern/`), in order, then `NaN`. -/
def resolveShortcutString (value : String) : JSNum :=
  if hasAnySub ["today", "tod", "heute", "0"] value then some 0
  else if hasAnySub ["tomorrow", "tom", "morgen"] value then some 1
  else if hasAnySub ["yesterday", "yes", "gestern"] value then some (-1)
  else none

/-- `resolveOffsetString` of the source: a leading `+` parses the rest, a
leading `-` parses the rest and multiplies by `-1`, anything else is `NaN`. -/
def resolveOffsetString (value : String) : JSNum :=
  match value.toList with
  | '+' :: rest => parseIntChars rest
  | '-' :: rest => (parseIntChars rest).map (fun n => n * (-1))
  | _ => none

/-- `searched < bound` on a JavaScript number: comparisons with `NaN` are
false. -/
def jsNumLt (a : JSNum) (b : Int) : Bool :=
  match a with
  | some x => decide (x < b)
  | none => false

/-- `searched > bound` on a JavaScript number: comparisons with `NaN` are
false. -/
def jsNumGt (a : JSNum) (b : Int) : Bool :=
  match a with
  | some x => decide (b < x)
  | none => false

/-- JavaScript truthiness of a number: `0` and `NaN` are falsy. -/
def jsTruthy (a : JSNum) : Bool :=
  match a with
  | some x => decide (x ≠ 0)
  | none => false

/-- `a - k` with `NaN` propagation. -/
def jsSub (a : JSNum) (k : Int) : JSNum := a.map (fun n => n - k)

/-- Days since 1970-01-01 of the civil date `(y, m, d)` with `m` 1-based in
`[1, 12]` and `d` an arbitrary integer (day `d` is the first of the month
plus `d - 1` days, exactly the normalisation JavaScript `Date.UTC` applies);
Howard Hinnant's `days_from_civil` algorithm. -/
def daysFromCivil (y m d : Int) : Int :=
  let y1 := if m ≤ 2 then y - 1 else y
  let era := Int.fdiv y1 400
  let yoe := y1 - era * 400
  let mp := Int.emod (m + 9) 12
  let doy := Int.fdiv (153 * mp + 2) 5 + d - 1
  let doe := yoe * 365 + Int.fdiv yoe 4 - Int.fdiv yoe 100 + doy
  era * 146097 + doe - 719468

/-- JavaScript `Date.UTC(year, month, day)` in milliseconds: `NaN` if any
argument is `NaN`; years `0..99` are read as `1900..1999`; an out-of-range
0-based month rolls over into adjacent years; the day is normalised by
adding `day - 1` days to the first of the month. -/
def jsDateUTC (year month day : JSNum) : JSNum :=
  match year, month, day with
  | some y, some m, some d =>
    let y2 := if 0 ≤ y ∧ y ≤ 99 then y + 1900 else y
    let ym := y2 * 12 + m
    some (daysFromCivil (Int.fdiv ym 12) (Int.emod ym 12 + 1) d * 86400000)
  | _, _, _ => none

/-- `Math.floor((inputInMS - todayInMS) / (1000 * 60 * 60 * 24))` with `NaN`
propagation; both operands are multiples of one day, so floor division is
exact. -/
def jsFloorDaysDiff (input today : JSNum) : JSNum :=
  match input, today with
  | some a, some b => some (Int.fdiv (a - b) 86400000)
  | _, _ => none

/-- The 0-based month is out of the checked range `[0, 12]` (note the upper
bound 12, one past the largest real month index). -/
def monthOutOfRange (m : JSNum) : Bool := jsNumLt m 0 || jsNumGt m 12

/-- The day is out of the checked range `[0, 31]`. -/
def dayOutOfRange (d : JSNum) : Bool := jsNumLt d 0 || jsNumGt d 31

/-- A thrown JavaScript exception as the parser can produce it: the
`TypeError` from reading `.length` of an `undefined` capture slot, or an
`Error` thrown by `resolveISOString` with its message. -/
inductive JSErr where
  | typeError
  | error (msg : String)
deriving DecidableEq, Repr

/-- The body of `resolveISOString` after `value.split("-")`: the three
arities of the calendar-date token, the month/day range checks, and the
UTC-midnight subtraction.  In the one-part arity `month` and `year` stay
`undefined`, so their checks are skipped and a falsy day (0 or `NaN`) falls
through to `throw new Error("Failed to parse the date")`; an empty `dt`
cannot arise from `split` but leaves `day` undefined (falsy) with its range
check skipped, reaching the same throw. -/
def resolveISOCore (today : RefDate) (dt : List String) : Except JSErr JSNum :=
  let todayInMS := jsDateUTC (some today.year) (some today.month) (some today.day)
  match dt with
  | p1 :: p2 :: p3 :: _ =>
    let month := jsSub (parseIntJS p2) 1
    let day := parseIntJS p3
    if monthOutOfRange month then .error (.error "Invalid value for month")
    else if dayOutOfRange day then .error (.error "Invalid value for day")
    else .ok (jsFloorDaysDiff (jsDateUTC (parseIntJS p1) month day) todayInMS)
  | [p1, p2] =>
    let month := jsSub (parseIntJS p1) 1
    let day := parseIntJS p2
    if monthOutOfRange month then .error (.error "Invalid value for month")
    else if dayOutOfRange day then .error (.error "Invalid value for day")
    else .ok (jsFloorDaysDiff (jsDateUTC (some today.year) month day) todayInMS)
  | [p1] =>
    let day := parseIntJS p1
    if dayOutOfRange day then .error (.error "Invalid value for day")
    else if jsTruthy day then
      .ok (jsFloorDaysDiff
        (jsDateUTC (some today.year) (some today.month) day) todayInMS)
    else .error (.error "Failed to parse the date")
  | [] => .error (.error "Failed to parse the date")

/-- JavaScript `value.split("-")` with a single-character separator:
accumulate the current field and start a new one at each `-`; the empty
string yields `[""]` and a trailing `-` yields a trailing empty field. -/
def splitOnDashAux : List Char → List Char → List String
  | acc, [] => [String.mk acc.reverse]
  | acc, c :: t =>
    if c == '-' then String.mk acc.reverse :: splitOnDashAux [] t
    else splitOnDashAux (c :: acc) t

/-- `resolveISOString` of the source: split the captured token on `-` and
resolve; a thrown `Error` is the `.error` case. -/
def resolveISOString (today : RefDate) (value : String) : Except JSErr JSNum :=
  resolveISOCore today (splitOnDashAux [] value.toList)

/-- `mod.charAt(0) === 'n'`: `charAt` of an empty string is `""`, which is
not `"n"`. -/
def jsCharAt0isN (mod : String) : Bool :=
  match mod.toList with
  | c :: _ => c == 'n'
  | [] => false

/-- The four-branch weekday arithmetic of `resolveWeekday`, over the already
looked-up target index and the reference weekday (`this.today.getDay()`).
`NaN` in either index makes every branch guard false, reaching the final
`return NaN`. -/
def resolveWeekdayAt (searchedDay currentDay : JSNum) (mod : String) : JSNum :=
  match searchedDay, currentDay with
  | some s, some c =>
    let diff := s - c
    let next := jsCharAt0isN mod
    if next = false ∧ diff < 0 then some diff
    else if next = false ∧ 0 ≤ diff then some (diff - 7)
    else if next = true ∧ diff ≤ 0 then some (diff + 7)
    else if next = true ∧ 0 < diff then some diff
    else none
  | _, _ => none

/-- Modelled from the spec: `J.Util.getDayOfWeekForString` is code of this
repository outside the given sources.  Per the spec it looks up the target
weekday's canonical index 0..6, consistent with the reference date's own
weekday numbering (JavaScript `getDay`, Sunday = 0), over the English
full/abbreviated and German full names; an unknown name is unresolved. -/
def getDayOfWeekForString (weekday : String) : JSNum :=
  if weekday == "sunday" || weekday == "sun" || weekday == "sonntag" then some 0
  else if weekday == "monday" || weekday == "mon" || weekday == "montag" then some 1
  else if weekday == "tuesday" || weekday == "tue" || weekday == "dienstag" then some 2
  else if weekday == "wednesday" || weekday == "wed" || weekday == "mittwoch" then some 3
  else if weekday == "thursday" || weekday == "thu" || weekday == "donnerstag" then some 4
  else if weekday == "friday" || weekday == "fri" || weekday == "freitag" then some 5
  else if weekday == "saturday" || weekday == "sat" || weekday == "samstag" then some 6
  else none

/-- `resolveWeekday` of the source: look up the named weekday, take the
reference date's weekday, and apply the four-branch arithmetic. -/
def resolveWeekday (today : RefDate) (mod weekday : String) : JSNum :=
  resolveWeekdayAt (getDayOfWeekForString weekday) (some today.wday) mod

/-- Modelled from the spec: `J.Model.Input` is code of this repository
outside the given sources.  Per the spec it carries a flag classification
(`""`, `"task"` or `"memo"`), a signed day offset or the unresolved (`NaN`)
sentinel, the memo text, and a scope identifier. -/
structure Input where
  flags : String
  offset : JSNum
  text : String
  scope : String
deriving DecidableEq, Repr

/-- Modelled from the spec: flags are present when the classification is
nonempty. -/
def Input.hasFlags (i : Input) : Bool := i.flags != ""

/-- Modelled from the spec: memo text is present when nonempty. -/
def Input.hasMemo (i : Input) : Bool := i.text != ""

/-- Modelled from the spec: the offset is resolved when it is not the
unresolved (`NaN`) sentinel. -/
def Input.hasOffset (i : Input) : Bool := i.offset.isSome

/-- `extractScope` of the source: a stub returning the constant scope. -/
def extractScope (_values : Captures) : String := "default"

/-- `extractText` of the source: `values[8] === null ? "" : values[8]`.
Group 8 always participates, so it is never `null` (nor `undefined`) and the
text is returned as captured. -/
def extractText (values : Captures) : String := values.g8

/-- `extractFlags` of the source: the leading flag slot if it participated,
else the trailing one, else the empty classification (this function uses
`isNullOrUndefined`, which does treat an absent slot correctly). -/
def extractFlags (values : Captures) : String :=
  match values.g1 with
  | some f => f
  | none =>
    match values.g7 with
    | some f => f
    | none => ""

/-- `extractOffset` of the source.  Each slot is read as
`let x = (values[i] !== null) ? values[i] : ""`; an absent capture slot is
`undefined`, and `undefined !== null` is true, so `x` is the slot itself and
the following `x.length` throws a `TypeError` whenever the slot is absent.
When a slot did participate, its captured word is nonempty and dispatches to
its resolver; the final `return NaN` is the no-date-expression result. -/
def extractOffset (today : RefDate) (values : Captures) : Except JSErr JSNum :=
  match values.g2 with
  | none => .error .typeError
  | some shortcut =>
    if shortcut.length > 0 then .ok (resolveShortcutString shortcut)
    else
      match values.g3 with
      | none => .error .typeError
      | some offset =>
        if offset.length > 0 then .ok (resolveOffsetString offset)
        else
          match values.g4 with
          | none => .error .typeError
          | some iso =>
            if iso.length > 0 then resolveISOString today iso
            else
              match values.g5 with
              | none => .error .typeError
              | some nextLast =>
                match values.g6 with
                | none => .error .typeError
                | some weekday =>
                  if nextLast.length > 0 && weekday.length > 0 then
                    .ok (resolveWeekday today nextLast weekday)
                  else .ok none

/-- A settled rejection of the `parseInput` promise: a string passed to
`reject` (`"cancel"`, or the validation message), or a caught thrown
exception. -/
inductive Rejection where
  | msg (s : String)
  | thrown (e : JSErr)
deriving DecidableEq, Repr

/-- The first settlement of the `Q.Promise` `parseInput` returns: `reject`
and `resolve` do not stop execution, but only the first settlement counts. -/
inductive ParseOutcome where
  | resolved (input : Input)
  | rejected (r : Rejection)
deriving DecidableEq, Repr

/-- The body of `parseInput` after a successful grammar match: extract the
slots (a `TypeError` thrown while extracting is caught and rejected), then
apply the three defaulting rules in source order.  `reject` does not return,
but a settled promise ignores later settlements, so the validation rejection
is final even though the remaining statements still run. -/
def assembleOrReject (today : RefDate) (res : Captures) : ParseOutcome :=
  match extractOffset today res with
  | .error e => .rejected (.thrown e)
  | .ok offset =>
    let input1 : Input :=
      { flags := extractFlags res, offset := offset,
        text := extractText res, scope := extractScope res }
    if input1.hasFlags && !input1.hasMemo then
      .rejected (.msg "No text found for memo or task")
    else
      let input2 :=
        if !input1.hasFlags && input1.hasMemo && decide (input1.text.length > 6)
        then { input1 with flags := "memo" } else input1
      let input3 :=
        if !input2.hasOffset && input2.hasFlags && input2.hasMemo
        then { input2 with offset := some 0 } else input2
      .resolved input3

/-- `parseInput` of the source.  `none` is a JavaScript `null` argument:
`isNullOrUndefined(value)` rejects with `"cancel"` (the `TypeError` from the
subsequent `value.match` is caught, but the promise is already settled).  An
empty string is NOT null or undefined, and the composite pattern matches
every line-terminator-free string, so the `"cancel"` branch for a null match
result is unreachable for string inputs; a string whose match throws inside
`extractOffset` is rejected with the caught exception. -/
def parseInput (today : RefDate) (value : Option String) : ParseOutcome :=
  match value with
  | none => .rejected (.msg "cancel")
  | some v =>
    match matchExpr v with
    | none => .rejected (.msg "cancel")
    | some res => assembleOrReject today res

/-- A sample reference date for concrete evaluations: Monday, 2024-01-15
(`getFullYear() = 2024`, `getMonth() = 0`, `getDate() = 15`,
`getDay() = 1`). -/
def refDate2024 : RefDate := ⟨2024, 0, 15, 1⟩

/-! ## Claim theorems -/

/-- C1: the spec expects `parse("task buy milk")` to resolve with
flags `"task"`, text `"buy milk"` and offset defaulted to 0.  The grammar
does capture the leading flag and the free text as expected, but the
shortcut capture slot is absent, so `extractOffset` reads `.length` of
`undefined` and `parseInput` rejects with that `TypeError` instead of ever
reaching the defaulting rules — for every reference date. -/
theorem c1_task_buy_milk_faults :
    matchExpr "task buy milk" =
      some ⟨some "task", none, none, none, none, none, none, "buy milk"⟩ ∧
    ∀ t : RefDate,
      parseInput t (some "task buy milk") = .rejected (.thrown .typeError) :=
  ⟨rfl, fun _ => rfl⟩

/-- C2 counterexample: `parseInput` on the empty string does not reject with
`"cancel"`; the grammar matches the empty line, the absent shortcut slot
faults, and the promise is rejected with the caught internal `TypeError`. -/
theorem c2_empty_not_cancelled :
    parseInput refDate2024 (some "") = .rejected (.thrown .typeError) ∧
    Rejection.thrown .typeError ≠ .msg "cancel" :=
  ⟨rfl, by decide⟩

/-- C2 amended: a null input rejects with `"cancel"`, but the empty string
passes the `isNullOrUndefined` check, matches the grammar with every date
slot absent, and is rejected with the internal `TypeError` from the absent
shortcut slot — a distinguishable internal error, not the cancellation
outcome. -/
theorem c2_null_and_empty_outcomes :
    (∀ t : RefDate, parseInput t none = .rejected (.msg "cancel")) ∧
    (∀ t : RefDate,
      parseInput t (some "") = .rejected (.thrown .typeError)) :=
  ⟨fun _ => rfl, fun _ => rfl⟩

/-- C3: for every input the grammar matches with the shortcut capture slot
absent, `extractOffset` reads `.length` of the `undefined` slot (guarded only
by `!== null`, which `undefined` passes), so `parseInput` rejects with the
caught internal `TypeError` and never resolves an `Input`. -/
theorem c3_absent_shortcut_slot_faults (t : RefDate) (v : String)
    (caps : Captures) (hm : matchExpr v = some caps) (hg : caps.g2 = none) :
    parseInput t (some v) = .rejected (.thrown .typeError) := by
  have h1 : parseInput t (some v) =
      (match matchExpr v with
       | none => .rejected (.msg "cancel")
       | some res => assembleOrReject t res) := rfl
  have h2 : extractOffset t caps = .error .typeError := by
    cases caps with
    | mk g1 g2 g3 g4 g5 g6 g7 g8 =>
      cases hg
      rfl
  rw [h1, hm]
  simp only [assembleOrReject, h2]

/-- C3 witness: the plain memo line `"x"` matches the grammar with the
shortcut slot absent and is rejected with the internal `TypeError`. -/
theorem c3_absent_shortcut_slot_faults_witness :
    matchExpr "x" = some ⟨none, none, none, none, none, none, none, "x"⟩ ∧
    parseInput refDate2024 (some "x") = .rejected (.thrown .typeError) :=
  ⟨rfl, c3_absent_shortcut_slot_faults refDate2024 "x"
    ⟨none, none, none, none, none, none, none, "x"⟩ rfl rfl⟩

/-- C4 counterexample: the German shortcut `heute` is not in the compiled
pattern's shortcut alternation, so it falls into the free-text group; the
absent shortcut slot then faults and `parseInput` rejects with the internal
`TypeError` instead of resolving offset 0 with empty flags and text. -/
theorem c4_heute_rejected :
    parseInput refDate2024 (some "heute") = .rejected (.thrown .typeError) ∧
    parseInput refDate2024 (some "heute") ≠
      .resolved ⟨"", some 0, "", "default"⟩ :=
  ⟨rfl, by decide⟩

/-- C4 amended: the English shortcut words and the literal `0`, given as the
sole input line, resolve with empty flags and empty text to the stated
offsets (`today`/`tod`/`0` to 0, `tomorrow`/`tom` to +1,
`yesterday`/`yes` to −1); the German words of the spec's vocabulary
(`heute`, `morgen`, `gestern`) are absent from the compiled pattern, fall
into free text, and are rejected with the internal `TypeError` from the
absent shortcut slot. -/
theorem c4_shortcut_vocabulary_behavior :
    (∀ t : RefDate,
      parseInput t (some "today") = .resolved ⟨"", some 0, "", "default"⟩) ∧
    (∀ t : RefDate,
      parseInput t (some "tod") = .resolved ⟨"", some 0, "", "default"⟩) ∧
    (∀ t : RefDate,
      parseInput t (some "0") = .resolved ⟨"", some 0, "", "default"⟩) ∧
    (∀ t : RefDate,
      parseInput t (some "tomorrow") = .resolved ⟨"", some 1, "", "default"⟩) ∧
    (∀ t : RefDate,
      parseInput t (some "tom") = .resolved ⟨"", some 1, "", "default"⟩) ∧
    (∀ t : RefDate,
      parseInput t (some "yesterday") =
        .resolved ⟨"", some (-1), "", "default"⟩) ∧
    (∀ t : RefDate,
      parseInput t (some "yes") = .resolved ⟨"", some (-1), "", "default"⟩) ∧
    (∀ t : RefDate,
      parseInput t (some "heute") = .rejected (.thrown .typeError)) ∧
    (∀ t : RefDate,
      parseInput t (some "morgen") = .rejected (.thrown .typeError)) ∧
    (∀ t : RefDate,
      parseInput t (some "gestern") = .rejected (.thrown .typeError)) :=
  ⟨fun _ => rfl, fun _ => rfl, fun _ => rfl, fun _ => rfl, fun _ => rfl,
   fun _ => rfl, fun _ => rfl, fun _ => rfl, fun _ => rfl, fun _ => rfl⟩

/-- C7: the spec expects `parse("+3 trip")` to resolve with offset +3, text
`"trip"` and flags `""`.  The grammar captures the numeric-offset token
`"+3"` and the text `"trip"`, and `resolveOffsetString` would resolve `"+3"`
to 3 — but `extractOffset` reads the absent shortcut slot first, so
`parseInput` rejects with the internal `TypeError` for every reference
date. -/
theorem c7_plus3_trip_faults :
    matchExpr "+3 trip" =
      some ⟨none, none, some "+3", none, none, none, none, "trip"⟩ ∧
    resolveOffsetString "+3" = some 3 ∧
    ∀ t : RefDate,
      parseInput t (some "+3 trip") = .rejected (.thrown .typeError) :=
  ⟨rfl, rfl, fun _ => rfl⟩

/-- C9 counterexample: `parseInput("task")` does not produce the validation
rejection `"No text found for memo or task"`; it rejects with the internal
`TypeError` from the absent shortcut slot. -/
theorem c9_task_not_validation_failure :
    parseInput refDate2024 (some "task") = .rejected (.thrown .typeError) ∧
    Rejection.thrown .typeError ≠ .msg "No text found for memo or task" :=
  ⟨rfl, by decide⟩

/-- C9 amended: the flag token of the grammar requires trailing whitespace,
so the bare word `"task"` is captured as free text with both flag slots
absent (`extractFlags` would return `""`); the absent shortcut slot then
faults, and `parseInput` rejects with the internal `TypeError` — neither the
validation failure nor the cancellation outcome is produced. -/
theorem c9_task_alone_behavior :
    matchExpr "task" =
      some ⟨none, none, none, none, none, none, none, "task"⟩ ∧
    extractFlags ⟨none, none, none, none, none, none, none, "task"⟩ = "" ∧
    ∀ t : RefDate,
      parseInput t (some "task") = .rejected (.thrown .typeError) :=
  ⟨rfl, rfl, fun _ => rfl⟩

/-- C10: the parse is a pure function of the input and the reference date:
two runs against the same reference date that resolve yield identical
`Input` values, component by component. -/
theorem c10_parse_deterministic (t : RefDate) (v : Option String)
    (i1 i2 : Input) (h1 : parseInput t v = .resolved i1)
    (h2 : parseInput t v = .resolved i2) :
    i1.flags = i2.flags ∧ i1.offset = i2.offset ∧
    i1.text = i2.text ∧ i1.scope = i2.scope := by
  rw [h1] at h2
  cases h2
  exact ⟨rfl, rfl, rfl, rfl⟩

/-- C10 witness: both runs of `parseInput` on `"today"` against the sample
reference date resolve to the same `Input`. -/
theorem c10_parse_deterministic_witness :
    (Input.mk "" (some 0) "" "default").flags =
      (Input.mk "" (some 0) "" "default").flags ∧
    (Input.mk "" (some 0) "" "default").offset =
      (Input.mk "" (some 0) "" "default").offset ∧
    (Input.mk "" (some 0) "" "default").text =
      (Input.mk "" (some 0) "" "default").text ∧
    (Input.mk "" (some 0) "" "default").scope =
      (Input.mk "" (some 0) "" "default").scope :=
  c10_parse_deterministic refDate2024 (some "today")
    ⟨"", some 0, "", "default"⟩ ⟨"", some 0, "", "default"⟩ rfl rfl

/-- C5: over all weekday indices 0..6 for the looked-up target and the
reference day, the four-branch arithmetic of `resolveWeekday` yields an
offset in [1, 7] when the modifier begins with `n` and in [−7, −1]
otherwise; equal indices give +7 under `next` and −7 under `last`, so this
path never yields offset 0. -/
theorem c5_weekday_offset_ranges (mod : String) (s c : Fin 7) :
    (jsCharAt0isN mod = true →
      (resolveWeekdayAt (some (s.val : Int)) (some (c.val : Int)) mod).isSome
          = true ∧
      1 ≤ (resolveWeekdayAt (some (s.val : Int)) (some (c.val : Int))
            mod).getD 0 ∧
      (resolveWeekdayAt (some (s.val : Int)) (some (c.val : Int))
            mod).getD 0 ≤ 7 ∧
      (s = c →
        (resolveWeekdayAt (some (s.val : Int)) (some (c.val : Int))
            mod).getD 0 = 7)) ∧
    (jsCharAt0isN mod = false →
      (resolveWeekdayAt (some (s.val : Int)) (some (c.val : Int)) mod).isSome
          = true ∧
      -7 ≤ (resolveWeekdayAt (some (s.val : Int)) (some (c.val : Int))
            mod).getD 0 ∧
      (resolveWeekdayAt (some (s.val : Int)) (some (c.val : Int))
            mod).getD 0 ≤ -1 ∧
      (s = c →
        (resolveWeekdayAt (some (s.val : Int)) (some (c.val : Int))
            mod).getD 0 = -7)) := by
  constructor <;> intro h <;>
    · simp only [resolveWeekdayAt, h]
      revert s c
      decide

/-- C5 witness: reference day and target both index 3 with modifier `next`
resolve to +7. -/
theorem c5_weekday_offset_ranges_witness :
    (resolveWeekdayAt (some ((3 : Fin 7).val : Int))
        (some ((3 : Fin 7).val : Int)) "next").isSome = true ∧
    1 ≤ (resolveWeekdayAt (some ((3 : Fin 7).val : Int))
        (some ((3 : Fin 7).val : Int)) "next").getD 0 ∧
    (resolveWeekdayAt (some ((3 : Fin 7).val : Int))
        (some ((3 : Fin 7).val : Int)) "next").getD 0 ≤ 7 ∧
    ((3 : Fin 7) = (3 : Fin 7) →
      (resolveWeekdayAt (some ((3 : Fin 7).val : Int))
          (some ((3 : Fin 7).val : Int)) "next").getD 0 = 7) :=
  (c5_weekday_offset_ranges "next" 3 3).1 rfl

/-- Is the `Except` result a thrown error? -/
def isErr {ε α : Type} : Except ε α → Bool
  | .error _ => true
  | .ok _ => false

/-- A digit character is not in the `\s` class. -/
theorem isJsSpace_eq_false_of_digitCh (c : Char) (h : isDigitCh c = true) :
    isJsSpace c = false := by
  simp only [isDigitCh, Bool.and_eq_true, decide_eq_true_eq] at h
  obtain ⟨h0, h9⟩ := h
  have hne : ∀ d : Char, (d < '0' ∨ '9' < d) → (c == d) = false := by
    intro d hd
    apply beq_eq_false_iff_ne.mpr
    intro he
    subst he
    rcases hd with hd | hd
    · exact absurd (lt_of_le_of_lt h0 hd) (lt_irrefl _)
    · exact absurd (lt_of_lt_of_le hd h9) (lt_irrefl _)
  have hr : (decide (' ' ≤ c)) = false := by
    simp only [decide_eq_false_iff_not]
    intro hc
    exact absurd (le_trans hc h9) (by decide)
  simp only [isJsSpace, hr, Bool.false_and, Bool.or_false,
    hne ' ' (by decide), hne '\t' (by decide), hne '\n' (by decide),
    hne '\u000b' (by decide), hne '\u000c' (by decide), hne '\r' (by decide),
    hne ' ' (by decide), hne ' ' (by decide),
    hne ' ' (by decide), hne ' ' (by decide),
    hne ' ' (by decide), hne ' ' (by decide),
    hne '　' (by decide), hne '﻿' (by decide)]

/-- `parseInt`'s leading-whitespace skip is a no-op on a digit run. -/
theorem dropWhile_isJsSpace_of_digits (l : List Char)
    (h : l.all isDigitCh = true) : l.dropWhile isJsSpace = l := by
  cases l with
  | nil => rfl
  | cons c t =>
    simp only [List.all_cons, Bool.and_eq_true] at h
    simp [List.dropWhile_cons, isJsSpace_eq_false_of_digitCh c h.1]

/-- The digit-run prefix of an all-digit list is the whole list. -/
theorem takeWhile_isDigitCh_of_digits (l : List Char)
    (h : l.all isDigitCh = true) : l.takeWhile isDigitCh = l := by
  induction l with
  | nil => rfl
  | cons c t ih =>
    simp only [List.all_cons, Bool.and_eq_true] at h
    simp [List.takeWhile_cons, h.1, ih h.2]

/-- On a nonempty digit run, `digitsPart` is its decimal value. -/
theorem digitsPart_of_digits (l : List Char) (hne : l ≠ [])
    (h : l.all isDigitCh = true) :
    digitsPart l = some ((digitsToNat l : Nat) : Int) := by
  simp only [digitsPart, takeWhile_isDigitCh_of_digits l h]
  cases l with
  | nil => exact absurd rfl hne
  | cons c t => rfl

/-- JavaScript `parseInt` of a nonempty digit string (no sign, no
whitespace) is its decimal value. -/
theorem parseIntChars_of_digits (l : List Char) (hne : l ≠ [])
    (h : l.all isDigitCh = true) :
    parseIntChars l = some ((digitsToNat l : Nat) : Int) := by
  unfold parseIntChars
  rw [dropWhile_isJsSpace_of_digits l h]
  cases l with
  | nil => exact absurd rfl hne
  | cons c t =>
    have hc : isDigitCh c = true := by
      simp only [List.all_cons, Bool.and_eq_true] at h
      exact h.1
    split
    · rename_i r heq
      rw [List.cons.injEq] at heq
      rw [heq.1] at hc
      exact absurd hc (by decide)
    · rename_i r heq
      rw [List.cons.injEq] at heq
      rw [heq.1] at hc
      exact absurd hc (by decide)
    · exact digitsPart_of_digits (c :: t) hne h

/-- A nonempty string of decimal digits — the shape of every numeric part
the grammar's calendar-date and offset tokens produce. -/
def isDigitStr (s : String) : Bool :=
  !s.toList.isEmpty && s.toList.all isDigitCh

/-- The decimal value of a digit string. -/
def digitVal (s : String) : Nat := digitsToNat s.toList

/-- A digit string starts with neither `+` nor `-`, so `resolveOffsetString`
falls through both sign branches to `return NaN`. -/
theorem resolveOffsetString_of_digits (s : String)
    (h : s.toList.all isDigitCh = true) : resolveOffsetString s = none := by
  unfold resolveOffsetString
  cases hl : s.toList with
  | nil => rfl
  | cons c t =>
    have hc : isDigitCh c = true := by
      rw [hl] at h
      simp only [List.all_cons, Bool.and_eq_true] at h
      exact h.1
    split
    · rename_i r heq
      rw [List.cons.injEq] at heq
      rw [heq.1] at hc
      exact absurd hc (by decide)
    · rename_i r heq
      rw [List.cons.injEq] at heq
      rw [heq.1] at hc
      exact absurd hc (by decide)
    · rfl

/-- C6 counterexample: the day-only token `"00"` (a grammar-shaped calendar
date with day value 0, month absent) raises the hard error `"Failed to parse
the date"` even though 0 is inside the checked day range [0, 31] and no
month is present — so the range checks are not the exact error condition. -/
theorem c6_day_zero_token_errors :
    resolveISOString refDate2024 "00" =
      .error (.error "Failed to parse the date") ∧
    splitOnDashAux [] "00".toList = ["00"] ∧
    parseIntJS "00" = some 0 ∧
    ¬((0 : Int) < 0 ∨ 31 < (0 : Int)) :=
  ⟨rfl, rfl, rfl, by decide⟩

/-- C6 amended: over the split parts of a calendar-date token (each part
parsing to a non-negative value, as every grammar-shaped digit part does),
`resolveISOString`'s body raises a hard error exactly when a present raw
month decrements to a 0-based value outside [0, 12] (raw value 0 or above
13), or a present day lies outside [0, 31], or the token is day-only with
day value 0 (the falsy-day guard throws `"Failed to parse the date"`).  In
particular a day of 31 passes for every month and a raw month of 13 passes
(rolling into the next year), with no month-length cross-check. -/
theorem c6_iso_error_characterization (t : RefDate) (p1 p2 p3 : String)
    (v1 v2 v3 : Nat) (h1 : parseIntJS p1 = some (v1 : Int))
    (h2 : parseIntJS p2 = some (v2 : Int))
    (h3 : parseIntJS p3 = some (v3 : Int)) :
    (isErr (resolveISOCore t [p1]) = true ↔ (v1 = 0 ∨ 31 < v1)) ∧
    (isErr (resolveISOCore t [p1, p2]) = true ↔
      (v1 = 0 ∨ 13 < v1 ∨ 31 < v2)) ∧
    (isErr (resolveISOCore t [p1, p2, p3]) = true ↔
      (v2 = 0 ∨ 13 < v2 ∨ 31 < v3)) := by
  refine ⟨?_, ?_, ?_⟩ <;>
    simp only [resolveISOCore, h1, h2, h3, jsSub, Option.map_some',
      monthOutOfRange, dayOutOfRange, jsNumLt, jsNumGt, jsTruthy,
      Bool.or_eq_true, decide_eq_true_eq] <;>
    split_ifs <;> simp_all [isErr] <;> omega

/-- C6 witness: day token `"12"` resolves without error; month-day `"12-31"`
accepts day 31 in every month; and full-date month 31 is out of range. -/
theorem c6_iso_error_characterization_witness :
    (isErr (resolveISOCore refDate2024 ["12"]) = true ↔
      (12 = 0 ∨ 31 < 12)) ∧
    (isErr (resolveISOCore refDate2024 ["12", "31"]) = true ↔
      (12 = 0 ∨ 13 < 12 ∨ 31 < 31)) ∧
    (isErr (resolveISOCore refDate2024 ["12", "31", "31"]) = true ↔
      (31 = 0 ∨ 13 < 31 ∨ 31 < 31)) :=
  c6_iso_error_characterization refDate2024 "12" "31" "31" 12 31 31
    rfl rfl rfl

/-- C8 counterexample: the digit string `"3"` with no leading sign is not
resolved to 3; `resolveOffsetString` returns the `NaN` sentinel. -/
theorem c8_unsigned_digits_counterexample :
    resolveOffsetString "3" = none ∧ (none : JSNum) ≠ some (3 : Int) :=
  ⟨rfl, by decide⟩

/-- C8 amended: for every nonempty digit string, a leading `+` yields the
parsed digits and a leading `-` their negation, but a string with neither
sign is NOT treated as positive: `resolveOffsetString` returns the `NaN`
(unresolved) sentinel for it. -/
theorem c8_offset_sign_behavior (s : String) (h : isDigitStr s = true) :
    resolveOffsetString ("+" ++ s) = some (digitVal s : Int) ∧
    resolveOffsetString ("-" ++ s) = some (-(digitVal s : Int)) ∧
    resolveOffsetString s = none := by
  obtain ⟨h1, h2⟩ : (!s.toList.isEmpty) = true ∧ s.toList.all isDigitCh = true := by
    simpa [isDigitStr, Bool.and_eq_true] using h
  have hne : s.toList ≠ [] := by
    intro he
    rw [he] at h1
    simp at h1
  refine ⟨?_, ?_, resolveOffsetString_of_digits s h2⟩
  · have e : resolveOffsetString ("+" ++ s) = parseIntChars s.toList := rfl
    rw [e, parseIntChars_of_digits s.toList hne h2]
    rfl
  · have e : resolveOffsetString ("-" ++ s) =
        (parseIntChars s.toList).map (fun n => n * (-1)) := rfl
    rw [e, parseIntChars_of_digits s.toList hne h2]
    simp only [Option.map_some', mul_neg_one]
    rfl

/-- C8 witness: `"+3"` resolves to 3, `"-3"` to −3, and the bare `"3"` to
the `NaN` sentinel. -/
theorem c8_offset_sign_behavior_witness :
    resolveOffsetString ("+" ++ "3") = some (digitVal "3" : Int) ∧
    resolveOffsetString ("-" ++ "3") = some (-(digitVal "3" : Int)) ∧
    resolveOffsetString "3" = none :=
  c8_offset_sign_behavior "3" rfl
